import Mathlib

/-
Verification development for the B2B Nexus backend (src/backend/server.py).
The Python service is shallowly embedded: the persistent MongoDB store is an
explicit record of lists threaded through each request handler, prices
(Python floats used exactly for money arithmetic) are modelled as rationals,
Python ints as Int, and wall-clock instants as Nat seconds.  Each handler is
a pure function from its request data and the store to a result and an
updated store; a raised HTTPException becomes a typed error value, and an
unhandled Python exception (such as an IndexError) becomes a distinct crash
outcome.  Identifier generation (uuid4) and password hashing (bcrypt) are
external effects, passed in as explicit parameters.
-/

namespace B2BNexus

/-- Roles, mirroring class UserRole (server.py lines 40-43). -/
inductive UserRole
  | admin
  | seller
  | buyer
deriving DecidableEq, Repr

/-- The wire value of a role, as embedded in tokens (UserRole is a str enum). -/
def UserRole.value : UserRole → String
  | .admin => "admin"
  | .seller => "seller"
  | .buyer => "buyer"

/-- Order states, mirroring class OrderStatus (server.py lines 45-50). -/
inductive OrderStatus
  | pending
  | confirmed
  | shipped
  | delivered
  | cancelled
deriving DecidableEq, Repr

/-
User record as stored in db.users: the pydantic User model (lines 53-64)
plus the password hash field added before insertion (line 207).  The
response-side User omits the password; no claim depends on that projection,
so a single record type is used.  Timestamps are Nat seconds.
-/
structure User where
  id : String
  email : String
  username : String
  full_name : String
  role : UserRole
  is_active : Bool
  company_name : Option String
  phone : Option String
  address : Option String
  password : String
  created_at : Nat
  updated_at : Nat
deriving DecidableEq, Repr

/-- Registration request body, mirroring class UserCreate (lines 66-74). -/
structure UserCreate where
  email : String
  username : String
  full_name : String
  password : String
  role : UserRole
  company_name : Option String
  phone : Option String
  address : Option String
deriving DecidableEq, Repr

/-- Login request body, mirroring class UserLogin (lines 76-78). -/
structure UserLogin where
  email : String
  password : String
deriving DecidableEq, Repr

/-- Product record, mirroring class Product (lines 85-99). -/
structure Product where
  id : String
  name : String
  alternate_names : List String
  description : String
  price : Rat
  stock_quantity : Int
  category : String
  tags : List String
  images : List String
  seller_id : String
  seller_name : String
  is_active : Bool
  created_at : Nat
  updated_at : Nat
deriving DecidableEq, Repr

/-- Update request body, mirroring class ProductUpdate (lines 111-119):
every field optional; absent fields keep their prior value. -/
structure ProductUpdate where
  name : Option String
  alternate_names : Option (List String)
  description : Option String
  price : Option Rat
  stock_quantity : Option Int
  category : Option String
  tags : Option (List String)
  images : Option (List String)
deriving DecidableEq, Repr

/-- Cart line, mirroring class CartItem (lines 121-126). -/
structure CartItem where
  product_id : String
  product_name : String
  price : Rat
  quantity : Int
  seller_id : String
deriving DecidableEq, Repr

/-- Cart record, mirroring class Cart (lines 128-133). -/
structure Cart where
  id : String
  user_id : String
  items : List CartItem
  total_amount : Rat
  updated_at : Nat
deriving DecidableEq, Repr

/-- Order record, mirroring class Order (lines 135-146). -/
structure Order where
  id : String
  buyer_id : String
  buyer_name : String
  seller_id : String
  seller_name : String
  items : List CartItem
  total_amount : Rat
  status : OrderStatus
  shipping_address : String
  created_at : Nat
  updated_at : Nat
deriving DecidableEq, Repr

/-- Order request body, mirroring class OrderCreate (lines 148-150). -/
structure OrderCreate where
  items : List CartItem
  shipping_address : String
deriving DecidableEq, Repr

/-- The persistent store: the four MongoDB collections used by the core.
find_one is embedded as List.find? (first matching document). -/
structure DB where
  users : List User
  products : List Product
  carts : List Cart
  orders : List Order
deriving DecidableEq, Repr

/-- One typed error per raise site of an HTTPException in the embedded
handlers, named after the detail string at that site. -/
inductive ApiError
  | invalidToken
  | userNotFound
  | tokenExpired
  | insufficientPermissions
  | emailAlreadyRegistered
  | usernameAlreadyTaken
  | invalidCredentials
  | accountDeactivated
  | productNotFound
  | insufficientStock
  | notAuthorizedToUpdate
  | notAuthorizedToDelete
deriving DecidableEq, Repr

/-- The error taxonomy of the specification (section 7), used to relate the
concrete raise sites to the spec vocabulary. -/
inductive SpecError
  | unauthenticated
  | accountDeactivated
  | forbidden
  | notFound
  | conflict
  | insufficientStock
  | validation
deriving DecidableEq, Repr

/-- Mapping each raise site to the spec taxonomy bucket (spec section 7).
No raise site of the source maps to the validation bucket. -/
def ApiError.toSpec : ApiError → SpecError
  | .invalidToken => .unauthenticated
  | .userNotFound => .unauthenticated
  | .tokenExpired => .unauthenticated
  | .insufficientPermissions => .forbidden
  | .emailAlreadyRegistered => .conflict
  | .usernameAlreadyTaken => .conflict
  | .invalidCredentials => .unauthenticated
  | .accountDeactivated => .accountDeactivated
  | .productNotFound => .notFound
  | .insufficientStock => .insufficientStock
  | .notAuthorizedToUpdate => .forbidden
  | .notAuthorizedToDelete => .forbidden

instance {ε α : Type} [DecidableEq ε] [DecidableEq α] : DecidableEq (Except ε α) :=
  fun a b =>
    match a, b with
    | .ok x, .ok y =>
      if h : x = y then .isTrue (by rw [h])
      else .isFalse (by intro hc; cases hc; exact h rfl)
    | .error x, .error y =>
      if h : x = y then .isTrue (by rw [h])
      else .isFalse (by intro hc; cases hc; exact h rfl)
    | .ok _, .error _ => .isFalse (by intro hc; cases hc)
    | .error _, .ok _ => .isFalse (by intro hc; cases hc)

/-- Result of a handler that can terminate with an unhandled Python
exception in addition to returning or raising an HTTPException. -/
inductive Outcome (α : Type)
  | ok (a : α)
  | err (e : ApiError)
  | crash
deriving DecidableEq, Repr

/-- Signed token payload: the claims written by create_access_token and read
back by jwt.decode.  The sub claim is read with payload.get and may be
absent. -/
structure TokenPayload where
  sub : Option String
  role : String
  exp : Nat
deriving DecidableEq, Repr

/-- A bearer credential: either a well-signed token carrying a payload, or a
string whose signature or structure does not verify. -/
inductive AccessToken
  | signed (payload : TokenPayload)
  | malformed
deriving DecidableEq, Repr

/-- JWT_EXPIRATION_TIME = 7 days (line 28), in seconds. -/
def JWT_EXPIRATION_SECONDS : Nat := 7 * 86400

/-- create_access_token (lines 159-162): a signed payload with subject,
role and expiry 7 days from issuance. -/
def create_access_token (user_id : String) (role : String) (now : Nat) : AccessToken :=
  .signed { sub := some user_id, role := role, exp := now + JWT_EXPIRATION_SECONDS }

/-- Login/register response body, mirroring class Token (lines 80-83). -/
structure Token where
  access_token : AccessToken
  token_type : String
  user : User
deriving DecidableEq, Repr

/-- get_current_user (lines 164-179): jwt.decode verifies signature and
expiry (ExpiredSignatureError when the expiry instant has passed), then the
sub claim is required and resolved against db.users.  The stored record is
returned as found; no field of it is inspected. -/
def get_current_user (tok : AccessToken) (now : Nat) (db : DB) : Except ApiError User :=
  match tok with
  | .malformed => .error .invalidToken
  | .signed payload =>
    if payload.exp ≤ now then .error .tokenExpired
    else
      match payload.sub with
      | none => .error .invalidToken
      | some user_id =>
        match db.users.find? (fun u => u.id == user_id) with
        | none => .error .userNotFound
        | some user_doc => .ok user_doc

/-- require_role (lines 181-186): authenticate, then reject a role outside
the allowed list. -/
def require_role (allowed_roles : List UserRole) (tok : AccessToken) (now : Nat)
    (db : DB) : Except ApiError User :=
  match get_current_user tok now db with
  | .error e => .error e
  | .ok current_user =>
    if current_user.role ∈ allowed_roles then .ok current_user
    else .error .insufficientPermissions

/-- The user document built by register (lines 200-207): the request fields
with a popped plaintext password, hashed password, fresh id, default active
flag and fresh timestamps. -/
def registeredUser (freshId : String) (hash : String → String) (now : Nat)
    (user_data : UserCreate) : User :=
  { id := freshId, email := user_data.email, username := user_data.username,
    full_name := user_data.full_name, role := user_data.role, is_active := true,
    company_name := user_data.company_name, phone := user_data.phone,
    address := user_data.address, password := hash user_data.password,
    created_at := now, updated_at := now }

/-- register (lines 189-214): reject a duplicate email, then a duplicate
username; otherwise store the new user (active, with the hashed password and
a fresh id) and return a bearer token for it.  uuid4 is the freshId
parameter and bcrypt the hash parameter. -/
def register (freshId : String) (hash : String → String) (now : Nat)
    (user_data : UserCreate) (db : DB) : Except ApiError (Token × DB) :=
  if (db.users.find? (fun u => u.email == user_data.email)).isSome then
    .error .emailAlreadyRegistered
  else if (db.users.find? (fun u => u.username == user_data.username)).isSome then
    .error .usernameAlreadyTaken
  else
    let user : User := registeredUser freshId hash now user_data
    let access_token := create_access_token user.id user.role.value now
    .ok ({ access_token := access_token, token_type := "bearer", user := user },
         { db with users := db.users ++ [user] })

/-- verify_password (lines 156-157), with bcrypt abstracted by the hash
parameter. -/
def verify_password (hash : String → String) (password hashed_password : String) : Bool :=
  hash password == hashed_password

/-- login (lines 216-227): resolve the email, check the password, reject a
deactivated account, and issue a token.  The store is unchanged. -/
def login (hash : String → String) (login_data : UserLogin) (now : Nat)
    (db : DB) : Except ApiError Token :=
  match db.users.find? (fun u => u.email == login_data.email) with
  | none => .error .invalidCredentials
  | some user_doc =>
    if ¬ verify_password hash login_data.password user_doc.password then
      .error .invalidCredentials
    else if ¬ user_doc.is_active then
      .error .accountDeactivated
    else
      .ok { access_token := create_access_token user_doc.id user_doc.role.value now,
            token_type := "bearer", user := user_doc }

/-- MongoDB update_one semantics: rewrite the first document matching the
filter, leave the rest untouched. -/
def updateFirst (p : α → Bool) (f : α → α) : List α → List α
  | [] => []
  | a :: l => if p a then f a :: l else a :: updateFirst p f l

/-- Application of a ProductUpdate document (lines 297-300): only the
present fields are applied, and updated_at is always refreshed. -/
def applyUpdate (product_data : ProductUpdate) (now : Nat) (p : Product) : Product :=
  { p with
    name := product_data.name.getD p.name,
    alternate_names := product_data.alternate_names.getD p.alternate_names,
    description := product_data.description.getD p.description,
    price := product_data.price.getD p.price,
    stock_quantity := product_data.stock_quantity.getD p.stock_quantity,
    category := product_data.category.getD p.category,
    tags := product_data.tags.getD p.tags,
    images := product_data.images.getD p.images,
    updated_at := now }

/-- update_product (lines 284-303), after the require_role dependency has
resolved current_user (role seller or admin).  Looks the product up with no
is_active filter, rejects a seller that does not own it, applies the present
fields, and re-reads the updated document.  The re-read failing would make
Product(**None) blow up, hence the crash outcome on that branch. -/
def update_product (current_user : User) (product_id : String)
    (product_data : ProductUpdate) (now : Nat) (db : DB) : Outcome (Product × DB) :=
  match db.products.find? (fun p => p.id == product_id) with
  | none => .err .productNotFound
  | some product_doc =>
    if current_user.role = UserRole.seller ∧ product_doc.seller_id ≠ current_user.id then
      .err .notAuthorizedToUpdate
    else
      let products2 := updateFirst (fun p => p.id == product_id)
        (applyUpdate product_data now) db.products
      match products2.find? (fun p => p.id == product_id) with
      | none => .crash
      | some updated_product => .ok (updated_product, { db with products := products2 })

/-- delete_product (lines 305-318), after require_role: same lookup and
ownership gate as update, then a soft delete setting is_active to false. -/
def delete_product (current_user : User) (product_id : String)
    (db : DB) : Except ApiError DB :=
  match db.products.find? (fun p => p.id == product_id) with
  | none => .error .productNotFound
  | some product_doc =>
    if current_user.role = UserRole.seller ∧ product_doc.seller_id ≠ current_user.id then
      .error .notAuthorizedToDelete
    else
      let products2 := updateFirst (fun p => p.id == product_id)
        (fun p => { p with is_active := false }) db.products
      .ok { db with products := products2 }

/-- get_cart (lines 321-328): return the existing cart, or lazily create
and persist an empty one. -/
def get_cart (current_user : User) (freshCartId : String) (now : Nat)
    (db : DB) : Cart × DB :=
  match db.carts.find? (fun c => c.user_id == current_user.id) with
  | some cart_doc => (cart_doc, db)
  | none =>
    let cart : Cart := { id := freshCartId, user_id := current_user.id,
                         items := [], total_amount := 0, updated_at := now }
    (cart, { db with carts := db.carts ++ [cart] })

/-- The recomputed cart total (line 369 and line 385): sum of price times
quantity over the lines. -/
def cartTotal (items : List CartItem) : Rat :=
  (items.map (fun item => item.price * (item.quantity : Rat))).sum

/-- The in-place increment of lines 359-365: the first line for the product
gets its quantity increased; every other line is untouched. -/
def bumpFirst (product_id : String) (quantity : Int) : List CartItem → List CartItem
  | [] => []
  | item :: rest =>
    if item.product_id == product_id then
      { item with quantity := item.quantity + quantity } :: rest
    else item :: bumpFirst product_id quantity rest

/-- Lines 356-367: when a line for the product exists its quantity is
summed, otherwise the fresh snapshot line is appended. -/
def mergeItem (product_id : String) (quantity : Int) (cart_item : CartItem)
    (items : List CartItem) : List CartItem :=
  if items.any (fun item => item.product_id == product_id) then
    bumpFirst product_id quantity items
  else items ++ [cart_item]

/-- add_to_cart (lines 330-377), after require_role([BUYER]): look the
product up among active products, gate on stock_quantity < quantity, read or
freshly build the cart, merge the line, recompute the total, and write the
cart back with upsert=True (embedded as: rewrite the first matching cart
document, or append the freshly built one when none matched). -/
def add_to_cart (current_user : User) (product_id : String) (quantity : Int)
    (freshCartId : String) (now : Nat) (db : DB) : Except ApiError DB :=
  match db.products.find? (fun p => p.id == product_id && p.is_active) with
  | none => .error .productNotFound
  | some product_doc =>
    if product_doc.stock_quantity < quantity then
      .error .insufficientStock
    else
      let cart_item : CartItem :=
        { product_id := product_id, product_name := product_doc.name,
          price := product_doc.price, quantity := quantity,
          seller_id := product_doc.seller_id }
      match db.carts.find? (fun c => c.user_id == current_user.id) with
      | some cart_doc =>
        let items := mergeItem product_id quantity cart_item cart_doc.items
        let total_amount := cartTotal items
        let carts2 := updateFirst (fun c => c.user_id == current_user.id)
          (fun c => { c with items := items, total_amount := total_amount, updated_at := now })
          db.carts
        .ok { db with carts := carts2 }
      | none =>
        let cart : Cart := { id := freshCartId, user_id := current_user.id,
                             items := [], total_amount := 0, updated_at := now }
        let items := mergeItem product_id quantity cart_item cart.items
        let total_amount := cartTotal items
        let carts2 := db.carts ++
          [{ cart with items := items, total_amount := total_amount, updated_at := now }]
        .ok { db with carts := carts2 }

/-- create_order (lines 380-410), after require_role([BUYER]): total from
the caller-supplied lines, seller identity from the first line (items[0]
raises IndexError on an empty list, hence the crash branch), seller display
name resolved best-effort, the order persisted with the default pending
status, and the first cart document of the buyer cleared (update_one with no
upsert: no matching cart means no write). -/
def create_order (current_user : User) (order_data : OrderCreate)
    (freshOrderId : String) (now : Nat) (db : DB) : Outcome (Order × DB) :=
  let total_amount := cartTotal order_data.items
  match order_data.items.head? with
  | none => .crash
  | some first_item =>
    let seller_name := match db.users.find? (fun u => u.id == first_item.seller_id) with
      | some seller_doc => seller_doc.full_name
      | none => ""
    let order : Order :=
      { id := freshOrderId, buyer_id := current_user.id,
        buyer_name := current_user.full_name, seller_id := first_item.seller_id,
        seller_name := seller_name, items := order_data.items,
        total_amount := total_amount, status := .pending,
        shipping_address := order_data.shipping_address,
        created_at := now, updated_at := now }
    let carts2 := updateFirst (fun c => c.user_id == current_user.id)
      (fun c => { c with items := [], total_amount := 0 }) db.carts
    .ok (order, { db with orders := db.orders ++ [order], carts := carts2 })

/-- The cart data-model invariant (spec section 3): at most one line per
product identity, and the cached total equal to the recomputed sum. -/
def CartInv (c : Cart) : Prop :=
  (c.items.map (fun item => item.product_id)).Nodup ∧ c.total_amount = cartTotal c.items

/-- Every cart document in the store satisfies the cart invariant. -/
def CartsInv (db : DB) : Prop := ∀ c ∈ db.carts, CartInv c

instance (c : Cart) : Decidable (CartInv c) := by
  unfold CartInv; exact inferInstance

instance (db : DB) : Decidable (CartsInv db) := by
  unfold CartsInv; exact inferInstance

/-- One add-to-cart request of a sequence: the product, the quantity, and
the external inputs (fresh cart id, instant) of that call. -/
structure AddReq where
  product_id : String
  quantity : Int
  freshCartId : String
  now : Nat
deriving DecidableEq, Repr

/-- A sequence of add-to-cart calls by one buyer.  A call that raises leaves
the store untouched (every raise site of add_to_cart precedes its write), so
the failed calls of the sequence are identity steps. -/
def runAdds (u : User) : List AddReq → DB → DB
  | [], db => db
  | r :: rs, db =>
    match add_to_cart u r.product_id r.quantity r.freshCartId r.now db with
    | .ok db2 => runAdds u rs db2
    | .error _ => runAdds u rs db

/- Concrete fixtures used by the closed instances below. -/

/-- A deterministic stand-in for the bcrypt hash. -/
def hashF : String → String := fun s => s ++ "#h"

def uSeller : User :=
  { id := "s1", email := "s1@x.com", username := "s1u", full_name := "Seller One",
    role := .seller, is_active := true, company_name := none, phone := none,
    address := none, password := "ph1", created_at := 0, updated_at := 0 }

def uSeller2 : User :=
  { id := "s2", email := "s2@x.com", username := "s2u", full_name := "Seller Two",
    role := .seller, is_active := true, company_name := none, phone := none,
    address := none, password := "ph2", created_at := 0, updated_at := 0 }

def uAdmin : User :=
  { id := "a1", email := "a1@x.com", username := "a1u", full_name := "Admin One",
    role := .admin, is_active := true, company_name := none, phone := none,
    address := none, password := "ph3", created_at := 0, updated_at := 0 }

def uBuyer : User :=
  { id := "b1", email := "b1@x.com", username := "b1u", full_name := "Buyer One",
    role := .buyer, is_active := true, company_name := none, phone := none,
    address := none, password := "ph4", created_at := 0, updated_at := 0 }

/-- A stored buyer whose active flag has been cleared. -/
def uDeactivated : User :=
  { id := "d1", email := "d1@x.com", username := "d1u", full_name := "Dormant One",
    role := .buyer, is_active := false, company_name := none, phone := none,
    address := none, password := "ph5", created_at := 0, updated_at := 0 }

def pLamp : Product :=
  { id := "p1", name := "Lamp", alternate_names := [], description := "a lamp",
    price := 10, stock_quantity := 5, category := "home", tags := [], images := [],
    seller_id := "s1", seller_name := "Seller One", is_active := true,
    created_at := 0, updated_at := 0 }

def dbEmpty : DB := { users := [], products := [], carts := [], orders := [] }

/-- A well-signed, unexpired token whose subject is the deactivated user. -/
def tokDeactivated : AccessToken :=
  .signed { sub := some "d1", role := "buyer", exp := 100 }

def dbC1 : DB := { users := [uDeactivated], products := [], carts := [], orders := [] }

/- A two-line cart snapshot with total 150, the round-trip example of the
spec (section 8). -/

def itemA : CartItem :=
  { product_id := "p1", product_name := "Lamp", price := 100, quantity := 1,
    seller_id := "s1" }

def itemB : CartItem :=
  { product_id := "p2", product_name := "Desk", price := 25, quantity := 2,
    seller_id := "s1" }

def odC2 : OrderCreate := { items := [itemA, itemB], shipping_address := "42 Main" }

def cartC2 : Cart :=
  { id := "c2", user_id := "b1", items := [itemA, itemB], total_amount := 150,
    updated_at := 0 }

def dbC2 : DB :=
  { users := [uSeller, uBuyer], products := [pLamp], carts := [cartC2], orders := [] }

/-- The order produced from odC2 against dbC2. -/
def oC4 : Order :=
  { id := "o1", buyer_id := "b1", buyer_name := "Buyer One", seller_id := "s1",
    seller_name := "Seller One", items := [itemA, itemB], total_amount := 150,
    status := .pending, shipping_address := "42 Main", created_at := 3,
    updated_at := 3 }

/-- The store after that order: the order appended, the cart cleared. -/
def dbC4b : DB :=
  { users := [uSeller, uBuyer], products := [pLamp],
    carts := [{ id := "c2", user_id := "b1", items := [], total_amount := 0,
                updated_at := 0 }],
    orders := [oC4] }

def db3 : DB := { users := [uBuyer], products := [pLamp], carts := [], orders := [] }

/-- The addItem sequence of the spec example: product p1 (price 10) with
quantity 2, then quantity 3 more. -/
def rs3 : List AddReq :=
  [{ product_id := "p1", quantity := 2, freshCartId := "c1", now := 1 },
   { product_id := "p1", quantity := 3, freshCartId := "c9", now := 2 }]

def db5 : DB :=
  { users := [uSeller, uSeller2, uAdmin], products := [pLamp], carts := [],
    orders := [] }

/-- An update document with every field absent. -/
def noneUpdate : ProductUpdate :=
  { name := none, alternate_names := none, description := none, price := none,
    stock_quantity := none, category := none, tags := none, images := none }

def db6 : DB := { users := [uBuyer], products := [pLamp], carts := [], orders := [] }

/-- The line written by an add-to-cart call with quantity 0. -/
def itemLampQ0 : CartItem :=
  { product_id := "p1", product_name := "Lamp", price := 10, quantity := 0,
    seller_id := "s1" }

/-- db6 after add-to-cart of product p1 with quantity 0 at instant 7. -/
def db6b : DB :=
  { users := [uBuyer], products := [pLamp],
    carts := [{ id := "c1", user_id := "b1", items := [itemLampQ0],
                total_amount := 0, updated_at := 7 }],
    orders := [] }

/-- An update document setting only a negative price. -/
def pdNeg : ProductUpdate :=
  { name := none, alternate_names := none, description := none,
    price := some (-1), stock_quantity := none, category := none, tags := none,
    images := none }

def db7 : DB := { users := [uSeller], products := [pLamp], carts := [], orders := [] }

/-- pLamp after pdNeg is applied at instant 3: the price is now negative. -/
def pLampNeg : Product := { pLamp with price := -1, updated_at := 3 }

def db7b : DB := { db7 with products := [pLampNeg] }

/-- A registration request reusing the stored email of uSeller. -/
def user_dataC8 : UserCreate :=
  { email := "s1@x.com", username := "freshname", full_name := "Fresh Name",
    password := "pw8", role := .buyer, company_name := none, phone := none,
    address := none }

def db8 : DB := { users := [uSeller], products := [], carts := [], orders := [] }

def odEmpty : OrderCreate := { items := [], shipping_address := "nowhere" }

/-- An unauthenticated registration request that self-assigns the admin
role. -/
def dataC10 : UserCreate :=
  { email := "a2@x.com", username := "a2u", full_name := "Admin Two",
    password := "pw10", role := .admin, company_name := none, phone := none,
    address := none }

/- Helper lemmas about the embedded store primitives. -/

theorem updateFirst_cons_pos {α : Type} {p : α → Bool} {f : α → α} {a : α} {l : List α}
    (h : p a = true) : updateFirst p f (a :: l) = f a :: l := by
  simp [updateFirst, h]

theorem updateFirst_cons_neg {α : Type} {p : α → Bool} {f : α → α} {a : α} {l : List α}
    (h : ¬ p a = true) : updateFirst p f (a :: l) = a :: updateFirst p f l := by
  simp [updateFirst, h]

/-- When the rewrite preserves the filter, rewriting the first match then
reading the first match reads the rewritten document. -/
theorem updateFirst_find? {α : Type} (p : α → Bool) (f : α → α) (l : List α)
    (hf : ∀ a, p a = true → p (f a) = true) :
    (updateFirst p f l).find? p = (l.find? p).map f := by
  induction l with
  | nil => rfl
  | cons a l ih =>
    by_cases h : p a = true
    · rw [updateFirst_cons_pos h, List.find?_cons_of_pos _ (hf a h),
        List.find?_cons_of_pos _ h, Option.map_some']
    · rw [updateFirst_cons_neg h, List.find?_cons_of_neg _ h,
        List.find?_cons_of_neg _ h, ih]

/-- Every document after an updateFirst either was already stored, or is the
rewrite of the first match. -/
theorem mem_updateFirst {α : Type} {p : α → Bool} {f : α → α} {l : List α} {x : α}
    (hx : x ∈ updateFirst p f l) :
    x ∈ l ∨ ∃ a, l.find? p = some a ∧ x = f a := by
  induction l with
  | nil => simp [updateFirst] at hx
  | cons a l ih =>
    by_cases h : p a = true
    · rw [updateFirst_cons_pos h] at hx
      rcases List.mem_cons.1 hx with h1 | h1
      · exact Or.inr ⟨a, List.find?_cons_of_pos _ h, h1⟩
      · exact Or.inl (List.mem_cons_of_mem _ h1)
    · rw [updateFirst_cons_neg h] at hx
      rcases List.mem_cons.1 hx with h1 | h1
      · exact Or.inl (h1 ▸ List.mem_cons_self a l)
      · rcases ih h1 with h2 | ⟨b, hb, hxb⟩
        · exact Or.inl (List.mem_cons_of_mem _ h2)
        · exact Or.inr ⟨b, by rw [List.find?_cons_of_neg _ h]; exact hb, hxb⟩

/-- Incrementing the quantity of the first line for a product does not
change the sequence of product identities of the lines. -/
theorem bumpFirst_map_product_id (product_id : String) (quantity : Int)
    (l : List CartItem) :
    (bumpFirst product_id quantity l).map (fun item => item.product_id)
      = l.map (fun item => item.product_id) := by
  induction l with
  | nil => rfl
  | cons a l ih =>
    by_cases h : (a.product_id == product_id) = true
    · simp [bumpFirst, h]
    · simp [bumpFirst, h, ih]

/-- Merging a line keeps the lines free of duplicate product identities. -/
theorem mergeItem_nodup (product_id : String) (quantity : Int) (cart_item : CartItem)
    (items : List CartItem) (hitem : cart_item.product_id = product_id)
    (h : (items.map (fun item => item.product_id)).Nodup) :
    ((mergeItem product_id quantity cart_item items).map
        (fun item => item.product_id)).Nodup := by
  unfold mergeItem
  by_cases hany : items.any (fun item => item.product_id == product_id) = true
  · rw [if_pos hany, bumpFirst_map_product_id]
    exact h
  · rw [if_neg hany, List.map_append]
    simp only [List.any_eq_true, beq_iff_eq, not_exists, not_and] at hany
    simp only [List.map_cons, List.map_nil, List.nodup_append, List.nodup_cons,
      List.not_mem_nil, not_false_eq_true, List.nodup_nil, and_true, true_and]
    refine ⟨h, ?_⟩
    intro x hxmem hxsing
    rcases List.mem_map.1 hxmem with ⟨it, hitmem, hiteq⟩
    rcases List.mem_singleton.1 hxsing with rfl
    exact hany it hitmem (hiteq.trans hitem)

/-- A successful add-to-cart call preserves the cart invariant of every
stored cart. -/
theorem add_to_cart_CartsInv {u : User} {product_id : String} {quantity : Int}
    {freshCartId : String} {now : Nat} {db db2 : DB} (hInv : CartsInv db)
    (h : add_to_cart u product_id quantity freshCartId now db = .ok db2) :
    CartsInv db2 := by
  cases hp : db.products.find? (fun p => p.id == product_id && p.is_active) with
  | none => simp [add_to_cart, hp] at h
  | some product_doc =>
    by_cases hs : product_doc.stock_quantity < quantity
    · simp [add_to_cart, hp, hs] at h
    · cases hc : db.carts.find? (fun c => c.user_id == u.id) with
      | some cart_doc =>
        simp only [add_to_cart, hp, hs, if_false, hc, Except.ok.injEq] at h
        subst h
        intro c hcmem
        rcases mem_updateFirst hcmem with hold | ⟨c0, hc0, rfl⟩
        · exact hInv c hold
        · rw [hc] at hc0
          cases hc0
          exact ⟨mergeItem_nodup _ _ _ _ rfl
            (hInv cart_doc (List.mem_of_find?_eq_some hc)).1, rfl⟩
      | none =>
        simp only [add_to_cart, hp, hs, if_false, hc, Except.ok.injEq] at h
        subst h
        intro c hcmem
        rcases List.mem_append.1 hcmem with hold | hnew
        · exact hInv c hold
        · rcases List.mem_singleton.1 hnew with rfl
          exact ⟨mergeItem_nodup product_id quantity _ [] rfl (by decide), rfl⟩

/-- C1, counterexample: a valid, unexpired token whose subject resolves to
the stored deactivated user authenticates successfully and returns that
identity, instead of failing with AccountDeactivated as the claim states. -/
theorem C1_counterexample :
    get_current_user tokDeactivated 0 dbC1 = .ok uDeactivated
      ∧ uDeactivated.is_active = false := by
  exact ⟨by decide, by decide⟩

/-- C1, amended: for every request carrying a valid, unexpired token whose
subject resolves to a stored user whose active flag is false, authentication
succeeds and returns that identity; get_current_user never inspects the
active flag (the flag is checked only at login). -/
theorem C1_authenticate_ignores_active_flag (payload : TokenPayload) (now : Nat)
    (db : DB) (user_id : String) (u : User)
    (hexp : now < payload.exp) (hsub : payload.sub = some user_id)
    (hfind : db.users.find? (fun w => w.id == user_id) = some u)
    (hinactive : u.is_active = false) :
    get_current_user (.signed payload) now db = .ok u := by
  simp only [get_current_user, hsub, hfind]
  rw [if_neg (by omega)]

/-- C1, witness: the amended statement holds at the concrete deactivated
user. -/
theorem C1_witness :
    (0 : Nat) < 100
      ∧ dbC1.users.find? (fun w => w.id == "d1") = some uDeactivated
      ∧ uDeactivated.is_active = false
      ∧ get_current_user tokDeactivated 0 dbC1 = .ok uDeactivated :=
  ⟨by decide, by decide, by decide,
    C1_authenticate_ignores_active_flag _ 0 dbC1 "d1" uDeactivated (by decide)
      rfl (by decide) (by decide)⟩

/-- C8: a registration whose email is already stored fails with the
duplicate-email error (the Conflict bucket of the spec taxonomy) before any
write: no user document is inserted and no token is issued. -/
theorem C8_duplicate_email_register_conflict (freshId : String)
    (hash : String → String) (now : Nat) (user_data : UserCreate) (db : DB)
    (h : (db.users.find? (fun u => u.email == user_data.email)).isSome = true) :
    register freshId hash now user_data db = .error .emailAlreadyRegistered
      ∧ ApiError.emailAlreadyRegistered.toSpec = .conflict := by
  refine ⟨?_, rfl⟩
  unfold register
  rw [if_pos h]

/-- C8, witness: re-registering the stored seller email is rejected. -/
theorem C8_witness :
    (db8.users.find? (fun u => u.email == user_dataC8.email)).isSome = true
      ∧ register "u9" hashF 0 user_dataC8 db8 = .error .emailAlreadyRegistered
      ∧ ApiError.emailAlreadyRegistered.toSpec = .conflict :=
  ⟨by decide, C8_duplicate_email_register_conflict "u9" hashF 0 user_dataC8 db8
    (by decide)⟩

/-- C9: with an empty line list, create_order reads index 0 of the lines
unconditionally, so the call ends in the crash outcome (the unhandled
IndexError), not in any typed error of the taxonomy. -/
theorem C9_create_order_empty_lines_crash (current_user : User)
    (order_data : OrderCreate) (freshOrderId : String) (now : Nat) (db : DB)
    (h : order_data.items = []) :
    create_order current_user order_data freshOrderId now db = .crash
      ∧ ∀ e : ApiError,
          create_order current_user order_data freshOrderId now db ≠ .err e := by
  have hcr : create_order current_user order_data freshOrderId now db = .crash := by
    unfold create_order
    rw [h]
    rfl
  exact ⟨hcr, fun e he => by rw [hcr] at he; exact Outcome.noConfusion he⟩

/-- C9, witness: the crash outcome at a concrete empty order request. -/
theorem C9_witness :
    odEmpty.items = []
      ∧ create_order uBuyer odEmpty "o1" 0 dbEmpty = .crash
      ∧ ∀ e : ApiError, create_order uBuyer odEmpty "o1" 0 dbEmpty ≠ .err e :=
  ⟨rfl, C9_create_order_empty_lines_crash uBuyer odEmpty "o1" 0 dbEmpty rfl⟩

/-- C2: for every buyer and non-empty supplied line list, create_order
returns an order whose total is the sum of price times quantity over the
supplied snapshot lines (the store is not re-read for the total), with the
pending status, and the same operation clears the buyer cart document to an
empty line list with total zero. -/
theorem C2_create_order_total_pending_and_cart_cleared (current_user : User)
    (order_data : OrderCreate) (freshOrderId : String) (now : Nat) (db : DB)
    (h : order_data.items ≠ []) :
    ∃ o db2, create_order current_user order_data freshOrderId now db = .ok (o, db2)
      ∧ o.total_amount = cartTotal order_data.items
      ∧ o.status = .pending
      ∧ ∀ c, db2.carts.find? (fun c => c.user_id == current_user.id) = some c →
          c.items = [] ∧ c.total_amount = 0 := by
  rcases List.exists_cons_of_ne_nil h with ⟨a, l, hl⟩
  unfold create_order
  rw [hl]
  refine ⟨_, _, rfl, rfl, rfl, ?_⟩
  intro c hcf
  have hcf2 : (updateFirst (fun c => c.user_id == current_user.id)
      (fun c => { c with items := [], total_amount := 0 }) db.carts).find?
        (fun c => c.user_id == current_user.id) = some c := hcf
  rw [updateFirst_find? (fun c : Cart => c.user_id == current_user.id)
    (fun c => { c with items := [], total_amount := 0 }) db.carts
    (fun x hx => hx)] at hcf2
  cases hfind : db.carts.find? (fun c => c.user_id == current_user.id) with
  | none => rw [hfind] at hcf2; cases hcf2
  | some c0 =>
    rw [hfind] at hcf2
    cases hcf2
    exact ⟨rfl, rfl⟩

/-- C2, witness: the round-trip example of the spec, a two-line snapshot
with total 150. -/
theorem C2_witness :
    odC2.items ≠ []
      ∧ ∃ o db2, create_order uBuyer odC2 "o1" 3 dbC2 = .ok (o, db2)
          ∧ o.total_amount = cartTotal odC2.items
          ∧ o.status = .pending
          ∧ ∀ c, db2.carts.find? (fun c => c.user_id == uBuyer.id) = some c →
              c.items = [] ∧ c.total_amount = 0 :=
  ⟨by decide,
    C2_create_order_total_pending_and_cart_cleared uBuyer odC2 "o1" 3 dbC2
      (by decide)⟩

/-- C4: a successful create_order call leaves the products collection of the
store untouched: no stock decrement happens on order creation. -/
theorem C4_create_order_preserves_products (current_user : User)
    (order_data : OrderCreate) (freshOrderId : String) (now : Nat) (db : DB)
    (o : Order) (db2 : DB)
    (h : create_order current_user order_data freshOrderId now db = .ok (o, db2)) :
    db2.products = db.products := by
  cases hl : order_data.items with
  | nil => simp [create_order, hl] at h
  | cons a l =>
    simp only [create_order, hl, List.head?_cons, Outcome.ok.injEq,
      Prod.mk.injEq] at h
    rcases h with ⟨-, hdb⟩
    subst hdb
    rfl

/-- C4, witness: a successful concrete order creation, with the explicit
resulting store, whose products list is the one it started from. -/
theorem C4_witness :
    create_order uBuyer odC2 "o1" 3 dbC2 = .ok (oC4, dbC4b)
      ∧ dbC4b.products = dbC2.products := by
  have hrun : create_order uBuyer odC2 "o1" 3 dbC2 = .ok (oC4, dbC4b) := by
    norm_num [create_order, odC2, dbC2, oC4, dbC4b, cartTotal, itemA, itemB,
      uBuyer, uSeller, pLamp, cartC2, updateFirst]
  exact ⟨hrun,
    C4_create_order_preserves_products uBuyer odC2 "o1" 3 dbC2 oC4 dbC4b hrun⟩

/-- C5: a seller who does not own the stored product gets the ownership
rejection (Forbidden in the spec taxonomy) from both update and delete —
raised before any write, so the store is untouched — while an admin is
never rejected for ownership on the same product. -/
theorem C5_ownership_gate (uS uA : User) (product_id : String)
    (product_data : ProductUpdate) (now : Nat) (db : DB) (p : Product)
    (hfind : db.products.find? (fun q => q.id == product_id) = some p)
    (hS : uS.role = .seller) (hSne : p.seller_id ≠ uS.id)
    (hA : uA.role = .admin) :
    update_product uS product_id product_data now db = .err .notAuthorizedToUpdate
      ∧ delete_product uS product_id db = .error .notAuthorizedToDelete
      ∧ update_product uA product_id product_data now db ≠ .err .notAuthorizedToUpdate
      ∧ delete_product uA product_id db ≠ .error .notAuthorizedToDelete := by
  have hAne : ¬ (uA.role = UserRole.seller ∧ p.seller_id ≠ uA.id) := by
    rintro ⟨hcontra, -⟩
    rw [hA] at hcontra
    exact UserRole.noConfusion hcontra
  refine ⟨?_, ?_, ?_, ?_⟩
  · simp only [update_product, hfind]
    rw [if_pos ⟨hS, hSne⟩]
  · simp only [delete_product, hfind]
    rw [if_pos ⟨hS, hSne⟩]
  · simp only [update_product, hfind]
    rw [if_neg hAne]
    cases hfa : (updateFirst (fun q => q.id == product_id)
        (applyUpdate product_data now) db.products).find?
        (fun q => q.id == product_id) with
    | none => simp [hfa]
    | some up => simp [hfa]
  · simp only [delete_product, hfind]
    rw [if_neg hAne]
    simp

/-- C5, witness: seller two cannot touch the product of seller one, the
admin is not ownership-rejected on it. -/
theorem C5_witness :
    db5.products.find? (fun q => q.id == "p1") = some pLamp
      ∧ uSeller2.role = .seller ∧ pLamp.seller_id ≠ uSeller2.id
      ∧ uAdmin.role = .admin
      ∧ (update_product uSeller2 "p1" noneUpdate 4 db5 = .err .notAuthorizedToUpdate
          ∧ delete_product uSeller2 "p1" db5 = .error .notAuthorizedToDelete
          ∧ update_product uAdmin "p1" noneUpdate 4 db5 ≠ .err .notAuthorizedToUpdate
          ∧ delete_product uAdmin "p1" db5 ≠ .error .notAuthorizedToDelete) :=
  ⟨by decide, by decide, by decide, by decide,
    C5_ownership_gate uSeller2 uAdmin "p1" noneUpdate 4 db5 pLamp (by decide)
      (by decide) (by decide) (by decide)⟩

/-- C6, counterexample: an addItem call with quantity 0 (strictly less than
1) against an active product with stock 5 does not fail: it succeeds and
writes a cart line with quantity 0, so the cart is mutated. -/
theorem C6_counterexample :
    (0 : Int) < 1
      ∧ add_to_cart uBuyer "p1" 0 "c1" 7 db6 = .ok db6b
      ∧ db6b ≠ db6 := by
  refine ⟨by decide, ?_, by decide⟩
  norm_num [add_to_cart, db6, db6b, uBuyer, pLamp, mergeItem, cartTotal,
    itemLampQ0]

/-- C6, amended: add_to_cart performs no lower bound check on the quantity:
any call whose product resolves as active and whose quantity does not exceed
the stock succeeds, also when the quantity is zero or negative — the only
typed failures of addItem are the missing-product and insufficient-stock
ones. -/
theorem C6_add_to_cart_accepts_nonpositive_quantity (current_user : User)
    (product_id : String) (quantity : Int) (freshCartId : String) (now : Nat)
    (db : DB) (product_doc : Product)
    (hq : quantity < 1)
    (hfind : db.products.find? (fun p => p.id == product_id && p.is_active)
      = some product_doc)
    (hstock : ¬ product_doc.stock_quantity < quantity) :
    ∃ db2, add_to_cart current_user product_id quantity freshCartId now db
      = .ok db2 := by
  cases hc : db.carts.find? (fun c => c.user_id == current_user.id) with
  | some cart_doc =>
    exact ⟨_, by simp only [add_to_cart, hfind, hc]; rw [if_neg hstock]⟩
  | none =>
    exact ⟨_, by simp only [add_to_cart, hfind, hc]; rw [if_neg hstock]⟩

/-- C6, witness: the amended statement at the concrete quantity 0 call. -/
theorem C6_witness :
    (0 : Int) < 1
      ∧ db6.products.find? (fun p => p.id == "p1" && p.is_active) = some pLamp
      ∧ ¬ pLamp.stock_quantity < 0
      ∧ ∃ db2, add_to_cart uBuyer "p1" 0 "c1" 7 db6 = .ok db2 :=
  ⟨by decide, by decide, by decide,
    C6_add_to_cart_accepts_nonpositive_quantity uBuyer "p1" 0 "c1" 7 db6 pLamp
      (by decide) (by decide) (by decide)⟩

/-- C7, counterexample: an owner update setting the price to -1 is not
rejected: it succeeds and the stored product price becomes negative.  No
raise site of the source maps to the Validation bucket at all. -/
theorem C7_counterexample :
    update_product uSeller "p1" pdNeg 3 db7 = .ok (pLampNeg, db7b)
      ∧ pLampNeg.price < 0 := by
  constructor
  · norm_num [update_product, db7, db7b, uSeller, pLamp, pLampNeg, pdNeg,
      updateFirst, applyUpdate]
  · norm_num [pLampNeg, pLamp]

/-- C7, amended: update_product applies a present negative price with no
validation: when the product resolves and the ownership gate passes, a spec
with price p strictly below 0 yields a successful update whose returned
product has price exactly p. -/
theorem C7_update_applies_negative_price (current_user : User)
    (product_id : String) (product_data : ProductUpdate) (now : Nat) (db : DB)
    (product_doc : Product) (pr : Rat)
    (hfind : db.products.find? (fun p => p.id == product_id) = some product_doc)
    (hauth : ¬ (current_user.role = UserRole.seller
      ∧ product_doc.seller_id ≠ current_user.id))
    (hpr : product_data.price = some pr) (hneg : pr < 0) :
    ∃ p2 db2, update_product current_user product_id product_data now db
        = .ok (p2, db2)
      ∧ p2.price = pr := by
  simp only [update_product, hfind]
  rw [if_neg hauth]
  rw [updateFirst_find? (fun p : Product => p.id == product_id)
    (applyUpdate product_data now) db.products (fun x hx => hx), hfind,
    Option.map_some']
  refine ⟨_, _, rfl, ?_⟩
  simp [applyUpdate, hpr]

/-- C7, witness: the amended statement at the concrete -1 price update. -/
theorem C7_witness :
    db7.products.find? (fun p => p.id == "p1") = some pLamp
      ∧ ¬ (uSeller.role = UserRole.seller ∧ pLamp.seller_id ≠ uSeller.id)
      ∧ pdNeg.price = some (-1)
      ∧ (-1 : Rat) < 0
      ∧ ∃ p2 db2, update_product uSeller "p1" pdNeg 3 db7 = .ok (p2, db2)
          ∧ p2.price = -1 :=
  ⟨by decide, by decide, rfl, by norm_num,
    C7_update_applies_negative_price uSeller "p1" pdNeg 3 db7 pLamp (-1)
      (by decide) (by decide) rfl (by norm_num)⟩

/-- C3: after any sequence of addItem calls by any buyer against a store
whose carts satisfy the cart invariant (in particular the empty store, the
only way carts are created), every stored cart still has at most one line
per product identity — an add for an already present product sums into the
existing line instead of appending a duplicate — and its total equals the
sum of price times quantity over its lines. -/
theorem C3_addItem_sequence_cart_invariant (u : User) (rs : List AddReq)
    (db : DB) (hInv : CartsInv db) : CartsInv (runAdds u rs db) := by
  induction rs generalizing db with
  | nil => exact hInv
  | cons r rs ih =>
    unfold runAdds
    cases hres : add_to_cart u r.product_id r.quantity r.freshCartId r.now db with
    | ok db2 => exact ih db2 (add_to_cart_CartsInv hInv hres)
    | error e => exact ih db hInv

/-- C3, witness: the spec example sequence — product p1 at price 10, add
quantity 2, then quantity 3 more — starting from a store with no carts. -/
theorem C3_witness :
    CartsInv db3 ∧ CartsInv (runAdds uBuyer rs3 db3) :=
  ⟨by decide, C3_addItem_sequence_cart_invariant uBuyer rs3 db3 (by decide)⟩

/-- C10: registration accepts the caller-chosen role verbatim, admin
included: with a fresh email, username and id, register succeeds, stores an
active user with exactly the requested role, and returns a token that — at
any instant before its expiry — authenticates against the updated store as
that stored user, and passes the role gate exactly for the lists containing
that role (so a self-assigned admin receives the full admin privileges). -/
theorem C10_register_accepts_any_role (freshId : String)
    (hash : String → String) (now now2 : Nat) (user_data : UserCreate) (db : DB)
    (h1 : db.users.find? (fun u => u.email == user_data.email) = none)
    (h2 : db.users.find? (fun u => u.username == user_data.username) = none)
    (h3 : ∀ w ∈ db.users, w.id ≠ freshId)
    (h4 : now2 < now + JWT_EXPIRATION_SECONDS) :
    ∃ tk db2, register freshId hash now user_data db = .ok (tk, db2)
      ∧ tk.user.role = user_data.role ∧ tk.user.is_active = true
      ∧ tk.user.id = freshId
      ∧ get_current_user tk.access_token now2 db2 = .ok tk.user
      ∧ ∀ allowed : List UserRole,
          (require_role allowed tk.access_token now2 db2).isOk = true
            ↔ user_data.role ∈ allowed := by
  have hreg : register freshId hash now user_data db =
      .ok ({ access_token := create_access_token freshId user_data.role.value now,
             token_type := "bearer",
             user := registeredUser freshId hash now user_data },
           { db with users := db.users ++ [registeredUser freshId hash now user_data] }) := by
    simp only [register, h1, h2, Option.isSome_none, Bool.false_eq_true, if_false]
    rfl
  have hg : get_current_user (create_access_token freshId user_data.role.value now)
      now2 { db with users := db.users ++ [registeredUser freshId hash now user_data] }
      = .ok (registeredUser freshId hash now user_data) := by
    have hpre : db.users.find? (fun u => u.id == freshId) = none :=
      List.find?_eq_none.2 (fun w hw => by
        simp only [beq_iff_eq]
        exact h3 w hw)
    simp only [get_current_user, create_access_token]
    rw [if_neg (by omega)]
    simp only [List.find?_append, hpre, Option.none_orElse]
    simp [registeredUser]
  refine ⟨_, _, hreg, rfl, rfl, rfl, hg, ?_⟩
  intro allowed
  simp only [require_role, hg]
  by_cases hmem : user_data.role ∈ allowed
  · rw [if_pos (by exact hmem)]
    simp [hmem, Except.isOk, Except.toBool]
  · rw [if_neg (by exact hmem)]
    simp [hmem, Except.isOk, Except.toBool]

/-- C10, witness: a fresh unauthenticated registration that self-assigns
the admin role against the empty store. -/
theorem C10_witness :
    dbEmpty.users.find? (fun u => u.email == dataC10.email) = none
      ∧ dbEmpty.users.find? (fun u => u.username == dataC10.username) = none
      ∧ (∀ w ∈ dbEmpty.users, w.id ≠ "u9")
      ∧ 1 < 0 + JWT_EXPIRATION_SECONDS
      ∧ ∃ tk db2, register "u9" hashF 0 dataC10 dbEmpty = .ok (tk, db2)
          ∧ tk.user.role = dataC10.role ∧ tk.user.is_active = true
          ∧ tk.user.id = "u9"
          ∧ get_current_user tk.access_token 1 db2 = .ok tk.user
          ∧ ∀ allowed : List UserRole,
              (require_role allowed tk.access_token 1 db2).isOk = true
                ↔ dataC10.role ∈ allowed :=
  ⟨rfl, rfl, by decide, by decide,
    C10_register_accepts_any_role "u9" hashF 0 1 dataC10 dbEmpty rfl rfl
      (by decide) (by decide)⟩

end B2BNexus
